import Mathlib

/-!
Shallow embedding of the weather-data pipeline in main.py
(load_data, clean_data, compute_statistics, group_and_aggregate,
create_visualizations, export_results, main) and proofs of the
specification's claims about it.

Modelling conventions:
* a pandas DataFrame is an index (default RangeIndex or a DatetimeIndex)
  together with named columns of cells;
* cells are rational numbers, strings, parsed timestamps, or missing (NaN);
* an exception raised by a library call is an `Except` error value; a
  Python function that can raise is embedded with an explicit error type;
* in-place mutation of the caller's DataFrame (clean_data mutates its
  argument) is embedded by returning the post-call state of the argument
  alongside the return value;
* pd.to_datetime is modelled on ISO `YYYY-MM-DD` strings; any other cell
  is unparseable (numeric epoch cells and NaT are outside every claim);
* floating-point arithmetic on the data is modelled exactly over ℚ, with
  NaN results modelled as `Option.none`; the standard deviation is the
  real square root of the sample variance (ddof = 1, which is what
  DataFrame.agg applies when handed np.std).
-/

structure Date where
  year : ℕ
  month : ℕ
  day : ℕ
deriving DecidableEq

inductive Cell where
  | num (q : ℚ)
  | str (s : String)
  | date (d : Date)
  | na
deriving DecidableEq

inductive Index where
  | range (n : ℕ)
  | dates (ds : List Date)
deriving DecidableEq

structure DataFrame where
  index : Index
  cols : List (String × List Cell)
deriving DecidableEq

def Index.len : Index → ℕ
  | .range n => n
  | .dates ds => ds.length

def DataFrame.len (df : DataFrame) : ℕ := df.index.len

/-- Column lookup, first match wins (df[name]); `none` is a KeyError. -/
def lookupCol : List (String × List Cell) → String → Option (List Cell)
  | [], _ => none
  | p :: ps, c => if p.1 = c then some p.2 else lookupCol ps c

def DataFrame.getCol? (df : DataFrame) (c : String) : Option (List Cell) :=
  lookupCol df.cols c

def DataFrame.hasCol (df : DataFrame) (c : String) : Bool :=
  (df.getCol? c).isSome

/-- All columns have as many cells as the index has entries. -/
def DataFrame.WF (df : DataFrame) : Prop :=
  ∀ p ∈ df.cols, p.2.length = df.len

instance (df : DataFrame) : Decidable df.WF := by
  unfold DataFrame.WF; infer_instance

/-! ### Date parsing (pd.to_datetime on an ISO date string) -/

def digitVal (c : Char) : Option ℕ :=
  if c.isDigit then some (c.toNat - Char.toNat (Char.ofNat 48)) else none

def digitsValAux : List Char → ℕ → Option ℕ
  | [], acc => some acc
  | c :: cs, acc =>
    match digitVal c with
    | some d => digitsValAux cs (acc * 10 + d)
    | none => none

def digitsVal (cs : List Char) : Option ℕ :=
  if cs.isEmpty then none else digitsValAux cs 0

def parseDate (s : String) : Option Date :=
  match (s.toList.splitOnP (fun c => c = Char.ofNat 45)).map digitsVal with
  | [some y, some m, some d] =>
    if 1 ≤ m ∧ m ≤ 12 ∧ 1 ≤ d ∧ d ≤ 31 then some (Date.mk y m d) else none
  | _ => none

def parseCellDate : Cell → Option Date
  | .str s => parseDate s
  | .date d => some d
  | .num _ => none
  | .na => none

/-- pd.to_datetime over a whole column: fails if any cell fails. -/
def toDatetime : List Cell → Option (List Date)
  | [] => some []
  | c :: cs =>
    match parseCellDate c, toDatetime cs with
    | some d, some ds => some (d :: ds)
    | _, _ => none

/-! ### clean_data -/

def DATE_COLUMN : String := "DateColumnName"

def RELEVANT_COLUMNS : List String := ["Temperature", "Rainfall", "Humidity"]

/-- The two exception kinds distinguished by clean_data's handlers. -/
inductive CleanExn where
  | keyError
  | parseError
deriving DecidableEq

/-- The try-block of clean_data: `df[DATE_COLUMN] = pd.to_datetime(df[DATE_COLUMN])`
followed by `df.set_index(DATE_COLUMN, inplace=True)`.  A missing column is a
KeyError; an unparseable value raised by to_datetime is the generic Exception.
On success the date column has been promoted to the index and removed from the
columns (this is the in-place mutation of the caller's frame). -/
def cleanTryBlock (df : DataFrame) : Except CleanExn DataFrame :=
  match df.getCol? DATE_COLUMN with
  | none => .error .keyError
  | some cs =>
    match toDatetime cs with
    | none => .error .parseError
    | some ds =>
      .ok { index := .dates ds,
            cols := df.cols.filter (fun p => !(p.1 == DATE_COLUMN)) }

/-- Result of a call to clean_data: the post-call state of the caller's
DataFrame object, the returned value (None on either handled exception),
the printed "Rows dropped/filled" count, and the missing relevant columns
reported by the warning (empty when none was printed). -/
structure CleanOutcome where
  post : DataFrame
  result : Option DataFrame
  droppedFilled : ℤ
  reportedMissing : List String

def clean_data (df : DataFrame) : CleanOutcome :=
  let initial_rows := df.len
  let droppedFilled : ℤ := (initial_rows : ℤ) - (df.len : ℤ)
  match cleanTryBlock df with
  | .error _ =>
    { post := df, result := none, droppedFilled := droppedFilled,
      reportedMissing := [] }
  | .ok df2 =>
    let missing := RELEVANT_COLUMNS.filter (fun c => !(df2.hasCol c))
    let existing := RELEVANT_COLUMNS.filter (fun c => df2.hasCol c)
    let df_cleaned : DataFrame :=
      if missing.isEmpty then
        { index := df2.index,
          cols := RELEVANT_COLUMNS.filterMap
            (fun c => (df2.getCol? c).map (fun cells => (c, cells))) }
      else
        { index := df2.index,
          cols := existing.filterMap
            (fun c => (df2.getCol? c).map (fun cells => (c, cells))) }
    { post := df2, result := some df_cleaned, droppedFilled := droppedFilled,
      reportedMissing := missing }

/-! ### compute_statistics -/

def cellNum : Cell → Option ℚ
  | .num q => some q
  | _ => none

/-- The numeric entries of a column; NaN (and non-numeric cells) are
skipped, which is what the pandas reductions do by default. -/
def seriesNums (cs : List Cell) : List ℚ := cs.filterMap cellNum

def seriesMean (cs : List Cell) : Option ℚ :=
  let xs := seriesNums cs
  if xs.length = 0 then none else some (xs.sum / (xs.length : ℚ))

def seriesMin (cs : List Cell) : Option ℚ :=
  match seriesNums cs with
  | [] => none
  | x :: xs => some (xs.foldl min x)

def seriesMax (cs : List Cell) : Option ℚ :=
  match seriesNums cs with
  | [] => none
  | x :: xs => some (xs.foldl max x)

/-- Sample variance (ddof = 1), NaN when fewer than two numeric entries. -/
def sampleVar (cs : List Cell) : Option ℚ :=
  let xs := seriesNums cs
  if xs.length ≤ 1 then none
  else
    some ((xs.map (fun x => (x - xs.sum / (xs.length : ℚ)) ^ 2)).sum /
      ((xs.length : ℚ) - 1))

/-- np.std handed to DataFrame.agg is applied as the pandas sample standard
deviation: the square root of the ddof = 1 variance. -/
noncomputable def seriesStd (cs : List Cell) : Option ℝ :=
  (sampleVar cs).map (fun v => Real.sqrt ((v : ℚ) : ℝ))

structure ColStats where
  mean : Option ℚ
  amin : Option ℚ
  amax : Option ℚ
  std : Option ℝ

structure OverallStats where
  temperature : ColStats
  rainfall : ColStats
  humidity : ColStats

/-- Every uncaught library exception the later pipeline stages can raise. -/
inductive PyExn where
  | keyError (col : String)
  | typeError
deriving DecidableEq

noncomputable def colAgg (cs : List Cell) : ColStats :=
  { mean := seriesMean cs, amin := seriesMin cs, amax := seriesMax cs,
    std := seriesStd cs }

/-- df.agg over the dict of the three relevant columns; a missing key
raises KeyError. -/
noncomputable def compute_statistics (df : DataFrame) :
    Except PyExn OverallStats :=
  match df.getCol? "Temperature", df.getCol? "Rainfall",
      df.getCol? "Humidity" with
  | some t, some r, some h =>
    .ok { temperature := colAgg t, rainfall := colAgg r, humidity := colAgg h }
  | none, _, _ => .error (.keyError "Temperature")
  | _, none, _ => .error (.keyError "Rainfall")
  | _, _, none => .error (.keyError "Humidity")

/-- Field selection of the per-column statistics by column name. -/
def statsFor (s : OverallStats) (c : String) : Option ColStats :=
  if c = "Temperature" then some s.temperature
  else if c = "Rainfall" then some s.rainfall
  else if c = "Humidity" then some s.humidity
  else none

/-! ### group_and_aggregate -/

/-- A calendar month counted from month 0 of year 0; the abstraction of the
month-end labels produced by resample with rule M. -/
def monthIdx (d : Date) : ℕ := d.year * 12 + (d.month - 1)

/-- The consecutive months from lo to hi inclusive; resample emits one row
per month in the span of the data, empty months included. -/
def monthSpan (lo hi : ℕ) : List ℕ :=
  (List.range (hi + 1 - lo)).map (fun i => lo + i)

structure MonthlyRow where
  month : ℕ
  tempMean : Option ℚ
  tempMin : Option ℚ
  tempMax : Option ℚ
  rainSum : ℚ
  humMean : Option ℚ
deriving DecidableEq

/-- pandas sum over a column: NaN-skipping, 0 on an empty bucket. -/
def seriesSum (cs : List Cell) : ℚ := (seriesNums cs).sum

/-- The cells of a column that fall into month bucket k. -/
def bucketCells (idx : List Date) (cs : List Cell) (k : ℕ) : List Cell :=
  ((idx.zip cs).filter (fun p => monthIdx p.1 == k)).map Prod.snd

/-- df.resample over rule M followed by agg: requires a DatetimeIndex
(TypeError otherwise) and the three relevant columns (KeyError otherwise);
produces one row per calendar month from the first to the last month
present, with temperature mean/min/max, rainfall sum and humidity mean
per bucket. -/
def group_and_aggregate (df : DataFrame) : Except PyExn (List MonthlyRow) :=
  match df.index with
  | .range _ => .error .typeError
  | .dates idx =>
    match df.getCol? "Temperature", df.getCol? "Rainfall",
        df.getCol? "Humidity" with
    | some t, some r, some h =>
      match idx.map monthIdx with
      | [] => .ok []
      | k0 :: ks =>
        let lo := ks.foldl Nat.min k0
        let hi := ks.foldl Nat.max k0
        .ok ((monthSpan lo hi).map (fun k =>
          { month := k,
            tempMean := seriesMean (bucketCells idx t k),
            tempMin := seriesMin (bucketCells idx t k),
            tempMax := seriesMax (bucketCells idx t k),
            rainSum := seriesSum (bucketCells idx r k),
            humMean := seriesMean (bucketCells idx h k) }))
    | none, _, _ => .error (.keyError "Temperature")
    | _, none, _ => .error (.keyError "Rainfall")
    | _, _, none => .error (.keyError "Humidity")

/-! ### Fixed configuration constants and artifact serialization -/

def DATA_FILE : String := "your_weather_data.csv"

def CLEANED_DATA_FILE : String := "cleaned_weather_data.csv"

def REPORT_FILE : String := "summary_report.md"

def PLOT_DIR : String := "plots"

def plotPath (s : String) : String := PLOT_DIR ++ "/" ++ s

def pad2 (n : ℕ) : String := if n < 10 then "0" ++ toString n else toString n

def dateCsv (d : Date) : String :=
  toString d.year ++ "-" ++ pad2 d.month ++ "-" ++ pad2 d.day

def cellCsv : Cell → String
  | .num q => toString q
  | .str s => s
  | .date d => dateCsv d
  | .na => ""

def indexEntryCsv (idx : Index) (i : ℕ) : String :=
  match idx with
  | .range _ => toString i
  | .dates ds => dateCsv (ds.getD i (Date.mk 0 0 0))

def csvHeader (df : DataFrame) : String :=
  String.intercalate ","
    ((match df.index with
      | .range _ => ""
      | .dates _ => DATE_COLUMN) :: df.cols.map Prod.fst)

def csvRow (df : DataFrame) (i : ℕ) : String :=
  String.intercalate ","
    (indexEntryCsv df.index i ::
      df.cols.map (fun p => cellCsv (p.2.getD i Cell.na)))

/-- DataFrame.to_csv: the byte content of the exported cleaned-data file. -/
def toCsv (df : DataFrame) : String :=
  String.intercalate "\n" (csvHeader df :: (List.range df.len).map (csvRow df))

/-- The year-month text strftime produces for the bar-chart x labels. -/
def monthLabel (k : ℕ) : String :=
  toString (k / 12) ++ "-" ++ pad2 (k % 12 + 1)

/-- The logical content of each saved chart. -/
inductive PlotImage where
  | line (idx : Index) (ys : List Cell)
  | bar (labels : List String) (values : List ℚ)
  | scatter (xs ys : List Cell)
  | subplots (idx : Index) (temp hum : List Cell)

/-- Contents of a file on the modelled filesystem.  The input data file
holds its parsed table (pd.read_csv is a pure function of the file bytes);
the report holds the fixed template as a function of the two statistics
tables it embeds. -/
inductive FileData where
  | table (df : DataFrame)
  | text (s : String)
  | image (p : PlotImage)
  | report (stats : OverallStats) (monthlyHead : List MonthlyRow)

abbrev FS := List (String × FileData)

def fsRead : FS → String → Option FileData
  | [], _ => none
  | p :: ps, path => if p.1 = path then some p.2 else fsRead ps path

/-! ### create_visualizations, export_results, main -/

/-- create_visualizations: the files it saves, in order, and the uncaught
exception that interrupted it, if any.  Chart order and the column accesses
follow the source: temperature line chart, monthly rainfall bar chart,
humidity/temperature scatter plot, combined subplots. -/
def create_visualizations (dfc : DataFrame) (monthly : List MonthlyRow) :
    List (String × FileData) × Option PyExn :=
  match dfc.getCol? "Temperature" with
  | none => ([], some (.keyError "Temperature"))
  | some t =>
    let w1 := (plotPath "temperature_line_chart.png",
      FileData.image (.line dfc.index t))
    let w2 := (plotPath "rainfall_bar_chart.png",
      FileData.image (.bar (monthly.map (fun r => monthLabel r.month))
        (monthly.map MonthlyRow.rainSum)))
    match dfc.getCol? "Humidity" with
    | none => ([w1, w2], some (.keyError "Humidity"))
    | some h =>
      let w3 := (plotPath "humidity_temp_scatter_plot.png",
        FileData.image (.scatter t h))
      let w4 := (plotPath "combined_temp_humidity_subplots.png",
        FileData.image (.subplots dfc.index t h))
      ([w1, w2, w3, w4], none)

/-- export_results: the cleaned-data CSV followed by the Markdown report,
which embeds the overall statistics and the head (first five rows) of the
monthly summary. -/
noncomputable def export_results (dfc : DataFrame) (stats : OverallStats)
    (monthly : List MonthlyRow) : List (String × FileData) :=
  [(CLEANED_DATA_FILE, FileData.text (toCsv dfc)),
   (REPORT_FILE, FileData.report stats (monthly.take 5))]

/-- pd.read_csv via the modelled filesystem: a missing file is the handled
FileNotFoundError and yields None. -/
def load_data (fs : FS) (path : String) : Option DataFrame :=
  match fsRead fs path with
  | some (.table df) => some df
  | _ => none

/-- Observable outcome of one run of main: the artifact files written with
their contents, in write order; the statistics tables computed (when
reached); and the uncaught exception that killed the process, if any. -/
structure RunResult where
  writes : List (String × FileData)
  stats : Option OverallStats
  monthly : Option (List MonthlyRow)
  exn : Option PyExn

/-- The pipeline from a successfully loaded raw table onwards. -/
noncomputable def run_pipeline (df_raw : DataFrame) : RunResult :=
  match (clean_data df_raw).result with
  | none => { writes := [], stats := none, monthly := none, exn := none }
  | some dfc =>
    match compute_statistics dfc with
    | .error e => { writes := [], stats := none, monthly := none, exn := some e }
    | .ok stats =>
      match group_and_aggregate dfc with
      | .error e =>
        { writes := [], stats := some stats, monthly := none, exn := some e }
      | .ok monthly =>
        match create_visualizations dfc monthly with
        | (ws, some e) =>
          { writes := ws, stats := some stats, monthly := some monthly,
            exn := some e }
        | (ws, none) =>
          { writes := ws ++ export_results dfc stats monthly,
            stats := some stats, monthly := some monthly, exn := none }

/-- main: load, clean, analyse, plot, export; aborts cleanly when the
loader or the cleaner yields no table. -/
noncomputable def main_run (fs : FS) : RunResult :=
  match load_data fs DATA_FILE with
  | none => { writes := [], stats := none, monthly := none, exn := none }
  | some df_raw => run_pipeline df_raw

/-! ### Helper lemmas about the embedded operations -/

lemma toDatetime_length : ∀ (cs : List Cell) (ds : List Date),
    toDatetime cs = some ds → ds.length = cs.length := by
  intro cs
  induction cs with
  | nil =>
    intro ds h
    simp only [toDatetime] at h
    cases h
    rfl
  | cons c cs ih =>
    intro ds h
    unfold toDatetime at h
    split at h
    · cases h
      rename_i d ds0 hp ht
      simp [ih ds0 ht]
    · exact Option.noConfusion h

lemma lookupCol_mem : ∀ (l : List (String × List Cell)) (c : String)
    (v : List Cell), lookupCol l c = some v → (c, v) ∈ l := by
  intro l
  induction l with
  | nil => intro c v h; cases h
  | cons p ps ih =>
    intro c v h
    unfold lookupCol at h
    split at h
    · cases h
      rename_i hpc
      subst hpc
      simp
    · exact List.mem_cons_of_mem _ (ih c v h)

lemma lookupCol_filter_ne (b c : String) (hne : c ≠ b) :
    ∀ (l : List (String × List Cell)),
      lookupCol (l.filter (fun p => !(p.1 == b))) c = lookupCol l c := by
  intro l
  induction l with
  | nil => rfl
  | cons p ps ih =>
    by_cases hpb : p.1 = b
    · have hpc : ¬ p.1 = c := by
        intro h
        exact hne (by rw [← h]; exact hpb)
      have hbc : ¬ b = c := fun h => hne h.symm
      simp [List.filter_cons, hpb, lookupCol, hpc, hbc, ih]
    · simp [List.filter_cons, hpb, lookupCol, ih]

lemma lookupCol_filter_self (c : String) :
    ∀ (l : List (String × List Cell)),
      lookupCol (l.filter (fun p => !(p.1 == c))) c = none := by
  intro l
  induction l with
  | nil => rfl
  | cons p ps ih =>
    by_cases hpc : p.1 = c
    · simp [List.filter_cons, hpc, ih]
    · simp [List.filter_cons, hpc, lookupCol, ih]

lemma lookupCol_proj (g : String → Option (List Cell)) :
    ∀ (names : List String) (c : String) (v : List Cell),
      names.Nodup → c ∈ names → g c = some v →
      lookupCol
        (names.filterMap (fun n => (g n).map (fun cells => (n, cells)))) c
        = some v := by
  intro names
  induction names with
  | nil => intro c v _ hc _; cases hc
  | cons n ns ih =>
    intro c v hnd hc hg
    rcases List.mem_cons.mp hc with rfl | hc2
    · simp [List.filterMap_cons, hg, lookupCol]
    · have hne : ¬ n = c := by
        intro h
        subst h
        exact (List.nodup_cons.mp hnd).1 hc2
      cases hgn : g n with
      | none =>
        simp [List.filterMap_cons, hgn,
          ih c v (List.nodup_cons.mp hnd).2 hc2 hg]
      | some w =>
        simp [List.filterMap_cons, hgn, lookupCol, hne,
          ih c v (List.nodup_cons.mp hnd).2 hc2 hg]

lemma proj_names (g : String → Option (List Cell)) :
    ∀ (names : List String),
      (names.filterMap
        (fun n => (g n).map (fun cells => (n, cells)))).map Prod.fst
        = names.filter (fun n => (g n).isSome) := by
  intro names
  induction names with
  | nil => rfl
  | cons n ns ih =>
    cases hgn : g n with
    | none => simp [List.filterMap_cons, List.filter_cons, hgn, ih]
    | some w => simp [List.filterMap_cons, List.filter_cons, hgn, ih]

/-- C1: for every input table that loads, whose configured date column
parses, and that has all three value columns, the cleaned table produced by
clean_data has the same number of rows as the raw table and its index is
exactly the parsed dates in source order (no sorting, no row dropping). -/
theorem C1_clean_preserves_rowcount_and_order
    (df : DataFrame) (cs : List Cell) (ds : List Date)
    (hwf : df.WF)
    (hdate : df.getCol? DATE_COLUMN = some cs)
    (hds : toDatetime cs = some ds)
    (hT : df.hasCol "Temperature" = true)
    (hR : df.hasCol "Rainfall" = true)
    (hH : df.hasCol "Humidity" = true) :
    ((clean_data df).result.map DataFrame.index) = some (Index.dates ds) ∧
    ((clean_data df).result.map DataFrame.len) = some df.len := by
  have hlen : ds.length = df.len := by
    rw [toDatetime_length cs ds hds]
    exact hwf (DATE_COLUMN, cs) (lookupCol_mem df.cols DATE_COLUMN cs hdate)
  have hdate2 : lookupCol df.cols DATE_COLUMN = some cs := hdate
  simp only [clean_data, cleanTryBlock, DataFrame.getCol?, hdate2, hds]
  refine ⟨?_, ?_⟩
  · simp only [Option.map_some']
    split <;> rfl
  · simp only [Option.map_some']
    split <;> simp [DataFrame.len, Index.len, hlen]

def wdfC1 : DataFrame :=
  { index := .range 2,
    cols := [(DATE_COLUMN, [.str "2024-01-01", .str "2024-01-02"]),
             ("Temperature", [.num 1, .num 2]),
             ("Rainfall", [.num 0, .num 1]),
             ("Humidity", [.num 50, .num 60])] }

/-- Witness for C1 at a concrete two-row table. -/
theorem C1_clean_preserves_rowcount_and_order_witness :
    (wdfC1.WF ∧
      wdfC1.getCol? DATE_COLUMN
        = some [.str "2024-01-01", .str "2024-01-02"] ∧
      toDatetime [.str "2024-01-01", .str "2024-01-02"]
        = some [Date.mk 2024 1 1, Date.mk 2024 1 2] ∧
      wdfC1.hasCol "Temperature" = true ∧
      wdfC1.hasCol "Rainfall" = true ∧
      wdfC1.hasCol "Humidity" = true) ∧
    (((clean_data wdfC1).result.map DataFrame.index)
        = some (Index.dates [Date.mk 2024 1 1, Date.mk 2024 1 2]) ∧
      ((clean_data wdfC1).result.map DataFrame.len) = some wdfC1.len) :=
  ⟨⟨by decide, by decide, by decide, by decide, by decide, by decide⟩,
    C1_clean_preserves_rowcount_and_order wdfC1
      [.str "2024-01-01", .str "2024-01-02"]
      [Date.mk 2024 1 1, Date.mk 2024 1 2] (by decide) (by decide)
      (by decide) (by decide) (by decide) (by decide)⟩

/-- C2 (amended): when the configured date column is present but holds a
value that cannot be parsed as a timestamp, the parse failure raised inside
the try-block is caught by the broad except-Exception handler: clean_data
returns None (leaving the caller's table untouched) and the pipeline halts
cleanly, exactly as for a missing date column. -/
theorem C2_parse_failure_is_caught
    (df : DataFrame) (cs : List Cell)
    (hcol : df.getCol? DATE_COLUMN = some cs)
    (hbad : toDatetime cs = none) :
    cleanTryBlock df = .error .parseError ∧
    (clean_data df).result = none ∧
    (clean_data df).post = df := by
  have h1 : cleanTryBlock df = .error .parseError := by
    simp only [cleanTryBlock, hcol, hbad]
  refine ⟨h1, ?_, ?_⟩ <;> simp [clean_data, h1]

def badDateDf : DataFrame :=
  { index := .range 1,
    cols := [(DATE_COLUMN, [.str "not-a-date"]),
             ("Temperature", [.num 1]), ("Rainfall", [.num 2]),
             ("Humidity", [.num 3])] }

def badDateFs : FS := [(DATA_FILE, .table badDateDf)]

/-- C2 counterexample: at a concrete input whose date column is present but
unparseable, the to_datetime failure does not propagate: clean_data returns
None and the whole run ends with no uncaught exception and no artifacts,
the clean halt the claim says does not happen. -/
theorem C2_counterexample :
    cleanTryBlock badDateDf = .error .parseError ∧
    (clean_data badDateDf).result = none ∧
    (main_run badDateFs).exn = none ∧
    (main_run badDateFs).writes = [] := by
  refine ⟨rfl, by decide, ?_, ?_⟩ <;> rfl

def wdfC2 : DataFrame :=
  { index := .range 1,
    cols := [(DATE_COLUMN, [.str "13-13-13x"]), ("Temperature", [.num 9]),
             ("Rainfall", [.num 1]), ("Humidity", [.num 55])] }

/-- Witness for the amended C2 at a concrete input. -/
theorem C2_parse_failure_is_caught_witness :
    (wdfC2.getCol? DATE_COLUMN = some [.str "13-13-13x"] ∧
      toDatetime [.str "13-13-13x"] = none) ∧
    (cleanTryBlock wdfC2 = .error .parseError ∧
      (clean_data wdfC2).result = none ∧ (clean_data wdfC2).post = wdfC2) :=
  ⟨⟨by decide, by decide⟩,
    C2_parse_failure_is_caught wdfC2 [.str "13-13-13x"] (by decide)
      (by decide)⟩

/-- C3: for every input file whose columns do not include the configured
date column name, clean_data yields no cleaned table, the orchestrator
returns early, and none of the six output artifacts is written. -/
theorem C3_missing_date_column_halts
    (fs : FS) (df : DataFrame)
    (hread : fsRead fs DATA_FILE = some (.table df))
    (hmiss : df.getCol? DATE_COLUMN = none) :
    (clean_data df).result = none ∧
    (main_run fs).writes = [] ∧
    (main_run fs).exn = none := by
  have h1 : cleanTryBlock df = .error .keyError := by
    simp only [cleanTryBlock, hmiss]
  have h2 : (clean_data df).result = none := by simp [clean_data, h1]
  refine ⟨h2, ?_, ?_⟩ <;>
    simp [main_run, load_data, hread, run_pipeline, h2]

def noDateDf : DataFrame :=
  { index := .range 1,
    cols := [("Temperature", [.num 1]), ("Rainfall", [.num 2]),
             ("Humidity", [.num 3])] }

def noDateFs : FS := [(DATA_FILE, .table noDateDf)]

/-- Witness for C3 at a concrete input table without the date column. -/
theorem C3_missing_date_column_halts_witness :
    (fsRead noDateFs DATA_FILE = some (.table noDateDf) ∧
      noDateDf.getCol? DATE_COLUMN = none) ∧
    ((clean_data noDateDf).result = none ∧
      (main_run noDateFs).writes = [] ∧ (main_run noDateFs).exn = none) :=
  ⟨⟨rfl, by decide⟩,
    C3_missing_date_column_halts noDateFs noDateDf rfl (by decide)⟩

/-- C9: clean_data mutates the raw table it is given: on a successful parse
it overwrites the date column with the parsed timestamps and promotes it to
the index in place, so the caller's object afterwards carries the date
index, no longer has the date column, and is not the table passed in. -/
theorem C9_clean_data_mutates_argument
    (df : DataFrame) (n : ℕ) (cs : List Cell) (ds : List Date)
    (hidx : df.index = .range n)
    (hcol : df.getCol? DATE_COLUMN = some cs)
    (hds : toDatetime cs = some ds) :
    (clean_data df).post.index = .dates ds ∧
    (clean_data df).post.hasCol DATE_COLUMN = false ∧
    (clean_data df).post ≠ df := by
  have h1 : cleanTryBlock df = .ok
      { index := .dates ds,
        cols := df.cols.filter (fun p => !(p.1 == DATE_COLUMN)) } := by
    simp only [cleanTryBlock, hcol, hds]
  have hpost : (clean_data df).post =
      { index := .dates ds,
        cols := df.cols.filter (fun p => !(p.1 == DATE_COLUMN)) } := by
    simp [clean_data, h1]
  refine ⟨by rw [hpost], ?_, ?_⟩
  · rw [hpost]
    simp [DataFrame.hasCol, DataFrame.getCol?, lookupCol_filter_self]
  · rw [hpost]
    intro h
    have hix : Index.dates ds = df.index := congrArg DataFrame.index h
    rw [hidx] at hix
    exact Index.noConfusion hix

def wdfC9 : DataFrame :=
  { index := .range 1,
    cols := [(DATE_COLUMN, [.str "2023-12-31"]), ("Temperature", [.num 7]),
             ("Rainfall", [.num 0]), ("Humidity", [.num 40])] }

/-- Witness for C9 at a concrete one-row table. -/
theorem C9_clean_data_mutates_argument_witness :
    (wdfC9.index = .range 1 ∧
      wdfC9.getCol? DATE_COLUMN = some [.str "2023-12-31"] ∧
      toDatetime [.str "2023-12-31"] = some [Date.mk 2023 12 31]) ∧
    ((clean_data wdfC9).post.index = .dates [Date.mk 2023 12 31] ∧
      (clean_data wdfC9).post.hasCol DATE_COLUMN = false ∧
      (clean_data wdfC9).post ≠ wdfC9) :=
  ⟨⟨rfl, by decide, by decide⟩,
    C9_clean_data_mutates_argument wdfC9 1 [.str "2023-12-31"]
      [Date.mk 2023 12 31] rfl (by decide) (by decide)⟩

lemma cleanTryBlock_ok_cols (df df2 : DataFrame) :
    cleanTryBlock df = .ok df2 →
    df2.cols = df.cols.filter (fun p => !(p.1 == DATE_COLUMN)) := by
  unfold cleanTryBlock
  split
  · intro h; exact Except.noConfusion h
  · split
    · intro h; exact Except.noConfusion h
    · intro h
      cases h
      rfl

lemma relevant_nodup : RELEVANT_COLUMNS.Nodup := by decide

/-- C10: clean_data drops and fills nothing: the printed rows-dropped/filled
count is zero for every input, and any relevant column present in the raw
table reaches the cleaned table cell-for-cell, missing entries included. -/
theorem C10_no_dropping_or_filling
    (df dfc : DataFrame) (c : String) (cells : List Cell)
    (hres : (clean_data df).result = some dfc)
    (hc : c ∈ RELEVANT_COLUMNS)
    (hcol : df.getCol? c = some cells) :
    (clean_data df).droppedFilled = 0 ∧ dfc.getCol? c = some cells := by
  have hdz : (clean_data df).droppedFilled = 0 := by
    cases h : cleanTryBlock df <;> simp [clean_data, h]
  refine ⟨hdz, ?_⟩
  have hcd : ¬ c = DATE_COLUMN := by
    have hc2 := hc
    simp only [RELEVANT_COLUMNS, List.mem_cons, List.not_mem_nil,
      or_false] at hc2
    rcases hc2 with rfl | rfl | rfl <;> decide
  cases h : cleanTryBlock df with
  | error e => simp [clean_data, h] at hres
  | ok df2 =>
    have hg2 : df2.getCol? c = some cells := by
      have hcols2 := cleanTryBlock_ok_cols df df2 h
      rw [DataFrame.getCol?, hcols2, lookupCol_filter_ne DATE_COLUMN c hcd]
      exact hcol
    simp only [clean_data, h, Option.some.injEq] at hres
    subst hres
    split
    · exact lookupCol_proj df2.getCol? RELEVANT_COLUMNS c cells
        relevant_nodup hc hg2
    · refine lookupCol_proj df2.getCol?
        (RELEVANT_COLUMNS.filter (fun x => df2.hasCol x)) c cells
        (relevant_nodup.filter _) ?_ hg2
      exact List.mem_filter.mpr ⟨hc, by simp [DataFrame.hasCol, hg2]⟩

def wdfC10 : DataFrame :=
  { index := .range 3,
    cols := [(DATE_COLUMN,
              [.str "2024-03-01", .str "2024-03-02", .str "2024-03-03"]),
             ("Temperature", [.num 11, .na, .num 13]),
             ("Rainfall", [.num 1, .num 2, .num 3]),
             ("Humidity", [.num 70, .num 71, .num 72])] }

def wcleanC10 : DataFrame :=
  { index := .dates [Date.mk 2024 3 1, Date.mk 2024 3 2, Date.mk 2024 3 3],
    cols := [("Temperature", [.num 11, .na, .num 13]),
             ("Rainfall", [.num 1, .num 2, .num 3]),
             ("Humidity", [.num 70, .num 71, .num 72])] }

/-- Witness for C10: a NaN temperature cell passes through untouched. -/
theorem C10_no_dropping_or_filling_witness :
    ((clean_data wdfC10).result = some wcleanC10 ∧
      "Temperature" ∈ RELEVANT_COLUMNS ∧
      wdfC10.getCol? "Temperature" = some [.num 11, .na, .num 13]) ∧
    ((clean_data wdfC10).droppedFilled = 0 ∧
      wcleanC10.getCol? "Temperature" = some [.num 11, .na, .num 13]) :=
  ⟨⟨by decide, by decide, by decide⟩,
    C10_no_dropping_or_filling wdfC10 wcleanC10 "Temperature"
      [.num 11, .na, .num 13] (by decide) (by decide) (by decide)⟩

/-- C8: when the date column parses, clean_data does not halt even if some
of the three relevant value columns are missing: it returns a table whose
columns are exactly the subset of the relevant columns present, in the
configured order, and reports exactly the missing ones (projecting onto all
three only when all are present). -/
theorem C8_partial_column_projection
    (df : DataFrame) (cs : List Cell) (ds : List Date)
    (hcol : df.getCol? DATE_COLUMN = some cs)
    (hds : toDatetime cs = some ds) :
    ((clean_data df).result.map (fun dfc => dfc.cols.map Prod.fst))
      = some (RELEVANT_COLUMNS.filter
          (fun c => (clean_data df).post.hasCol c)) ∧
    (clean_data df).reportedMissing
      = RELEVANT_COLUMNS.filter
          (fun c => !((clean_data df).post.hasCol c)) := by
  have h1 : cleanTryBlock df = .ok
      { index := .dates ds,
        cols := df.cols.filter (fun p => !(p.1 == DATE_COLUMN)) } := by
    simp only [cleanTryBlock, hcol, hds]
  set df2 : DataFrame :=
      { index := .dates ds,
        cols := df.cols.filter (fun p => !(p.1 == DATE_COLUMN)) } with hdf2
  have hpost : (clean_data df).post = df2 := by simp [clean_data, h1]
  rw [hpost]
  constructor
  · simp only [clean_data, h1, Option.map_some']
    split
    · rw [proj_names]
      rfl
    · rw [proj_names]
      simp only [DataFrame.hasCol, List.filter_filter]
      simp
  · simp only [clean_data, h1]

def wdfC8 : DataFrame :=
  { index := .range 2,
    cols := [(DATE_COLUMN, [.str "2024-05-01", .str "2024-06-01"]),
             ("Temperature", [.num 20, .num 25]),
             ("Rainfall", [.num 2, .num 4])] }

/-- Witness for C8 at a table lacking the Humidity column. -/
theorem C8_partial_column_projection_witness :
    (wdfC8.getCol? DATE_COLUMN
        = some [.str "2024-05-01", .str "2024-06-01"] ∧
      toDatetime [.str "2024-05-01", .str "2024-06-01"]
        = some [Date.mk 2024 5 1, Date.mk 2024 6 1]) ∧
    (((clean_data wdfC8).result.map (fun dfc => dfc.cols.map Prod.fst))
        = some (RELEVANT_COLUMNS.filter
            (fun c => (clean_data wdfC8).post.hasCol c)) ∧
      (clean_data wdfC8).reportedMissing
        = RELEVANT_COLUMNS.filter
            (fun c => !((clean_data wdfC8).post.hasCol c))) :=
  ⟨⟨by decide, by decide⟩,
    C8_partial_column_projection wdfC8
      [.str "2024-05-01", .str "2024-06-01"]
      [Date.mk 2024 5 1, Date.mk 2024 6 1] (by decide) (by decide)⟩

/-! ### Statistics of a constant column -/

lemma seriesNums_replicate (n : ℕ) (v : ℚ) :
    seriesNums (List.replicate n (Cell.num v)) = List.replicate n v := by
  unfold seriesNums
  induction n with
  | zero => rfl
  | succ m ih => simpa [List.replicate_succ, List.filterMap_cons, cellNum]
      using ih

lemma seriesMean_replicate (n : ℕ) (v : ℚ) (hn : n ≠ 0) :
    seriesMean (List.replicate n (Cell.num v)) = some v := by
  have hq : (n : ℚ) ≠ 0 := Nat.cast_ne_zero.mpr hn
  simp only [seriesMean, seriesNums_replicate, List.length_replicate,
    List.sum_replicate, nsmul_eq_mul]
  rw [if_neg hn, mul_div_cancel_left₀ v hq]

lemma foldl_min_const (v : ℚ) : ∀ (m : ℕ),
    (List.replicate m v).foldl min v = v := by
  intro m
  induction m with
  | zero => rfl
  | succ k ih => simpa [List.replicate_succ, min_self] using ih

lemma foldl_max_const (v : ℚ) : ∀ (m : ℕ),
    (List.replicate m v).foldl max v = v := by
  intro m
  induction m with
  | zero => rfl
  | succ k ih => simpa [List.replicate_succ, max_self] using ih

lemma seriesMin_replicate (n : ℕ) (v : ℚ) (hn : n ≠ 0) :
    seriesMin (List.replicate n (Cell.num v)) = some v := by
  obtain ⟨m, rfl⟩ : ∃ m, n = m + 1 := ⟨n - 1, by omega⟩
  simp only [seriesMin, seriesNums_replicate]
  simp only [List.replicate_succ]
  rw [foldl_min_const]

lemma seriesMax_replicate (n : ℕ) (v : ℚ) (hn : n ≠ 0) :
    seriesMax (List.replicate n (Cell.num v)) = some v := by
  obtain ⟨m, rfl⟩ : ∃ m, n = m + 1 := ⟨n - 1, by omega⟩
  simp only [seriesMax, seriesNums_replicate]
  simp only [List.replicate_succ]
  rw [foldl_max_const]

lemma sampleVar_replicate (n : ℕ) (v : ℚ) (hn : 2 ≤ n) :
    sampleVar (List.replicate n (Cell.num v)) = some 0 := by
  have hn0 : n ≠ 0 := by omega
  have hq : (n : ℚ) ≠ 0 := Nat.cast_ne_zero.mpr hn0
  simp only [sampleVar, seriesNums_replicate, List.length_replicate,
    List.sum_replicate, nsmul_eq_mul]
  rw [if_neg (by omega : ¬ n ≤ 1)]
  simp [mul_div_cancel_left₀ v hq, List.map_replicate, sub_self]

lemma seriesStd_replicate (n : ℕ) (v : ℚ) (hn : 2 ≤ n) :
    seriesStd (List.replicate n (Cell.num v)) = some 0 := by
  simp [seriesStd, sampleVar_replicate n v hn, Real.sqrt_zero]

/-- C4 (amended): for every cleaned table with N rows, N ≥ 2, in which one
of the three value columns holds the same value v in every row,
compute_statistics reports for that column mean = min = max = v and
standard deviation = 0.  (At N = 1 the ddof = 1 standard deviation the agg
call applies is NaN, see the counterexample.) -/
theorem C4_constant_column_stats
    (df : DataFrame) (c : String) (n : ℕ) (v : ℚ)
    (hn : 2 ≤ n)
    (hc : c ∈ RELEVANT_COLUMNS)
    (hcol : df.getCol? c = some (List.replicate n (Cell.num v)))
    (ht : df.hasCol "Temperature" = true)
    (hr : df.hasCol "Rainfall" = true)
    (hh : df.hasCol "Humidity" = true) :
    (compute_statistics df).map (fun s => statsFor s c)
      = .ok (some { mean := some v, amin := some v, amax := some v,
                    std := some 0 }) := by
  have hn0 : n ≠ 0 := by omega
  have ht2 : (df.getCol? "Temperature").isSome = true := ht
  have hr2 : (df.getCol? "Rainfall").isSome = true := hr
  have hh2 : (df.getCol? "Humidity").isSome = true := hh
  obtain ⟨t, hTc⟩ := Option.isSome_iff_exists.mp ht2
  obtain ⟨r, hRc⟩ := Option.isSome_iff_exists.mp hr2
  obtain ⟨h, hHc⟩ := Option.isSome_iff_exists.mp hh2
  simp only [compute_statistics, hTc, hRc, hHc, Except.map]
  have hc2 := hc
  simp only [RELEVANT_COLUMNS, List.mem_cons, List.not_mem_nil,
    or_false] at hc2
  rcases hc2 with rfl | rfl | rfl
  · rw [hTc] at hcol
    cases Option.some.inj hcol
    simp [statsFor, colAgg, seriesMean_replicate n v hn0,
      seriesMin_replicate n v hn0, seriesMax_replicate n v hn0,
      seriesStd_replicate n v hn]
  · rw [hRc] at hcol
    cases Option.some.inj hcol
    simp [statsFor, colAgg, seriesMean_replicate n v hn0,
      seriesMin_replicate n v hn0, seriesMax_replicate n v hn0,
      seriesStd_replicate n v hn]
  · rw [hHc] at hcol
    cases Option.some.inj hcol
    simp [statsFor, colAgg, seriesMean_replicate n v hn0,
      seriesMin_replicate n v hn0, seriesMax_replicate n v hn0,
      seriesStd_replicate n v hn]

def oneRowDf : DataFrame :=
  { index := .dates [Date.mk 2024 1 1],
    cols := [("Temperature", [.num 5]), ("Rainfall", [.num 5]),
             ("Humidity", [.num 5])] }

/-- C4 counterexample: at a one-row table (N = 1 ≥ 1) whose Temperature is
constantly 5, the standard deviation compute_statistics reports is NaN
(the ddof = 1 reduction of a single value), not 0 as the claim states. -/
theorem C4_counterexample :
    (compute_statistics oneRowDf).map (fun s => s.temperature.std)
        = .ok none ∧
    (compute_statistics oneRowDf).map (fun s => s.temperature.std)
        ≠ .ok (some 0) := by
  have h1 : (compute_statistics oneRowDf).map (fun s => s.temperature.std)
      = .ok none := rfl
  refine ⟨h1, ?_⟩
  rw [h1]
  intro h
  exact Option.noConfusion (Except.ok.inj h)

def wdfC4 : DataFrame :=
  { index := .dates [Date.mk 2024 7 1, Date.mk 2024 7 2],
    cols := [("Temperature", [.num 21, .num 21]),
             ("Rainfall", [.num 1, .num 2]),
             ("Humidity", [.num 60, .num 61])] }

/-- Witness for the amended C4 at a two-row constant Temperature column. -/
theorem C4_constant_column_stats_witness :
    (2 ≤ 2 ∧ "Temperature" ∈ RELEVANT_COLUMNS ∧
      wdfC4.getCol? "Temperature"
        = some (List.replicate 2 (Cell.num 21)) ∧
      wdfC4.hasCol "Temperature" = true ∧
      wdfC4.hasCol "Rainfall" = true ∧
      wdfC4.hasCol "Humidity" = true) ∧
    (compute_statistics wdfC4).map (fun s => statsFor s "Temperature")
      = .ok (some { mean := some 21, amin := some 21, amax := some 21,
                    std := some 0 }) :=
  ⟨⟨by decide, by decide, by decide, by decide, by decide, by decide⟩,
    C4_constant_column_stats wdfC4 "Temperature" 2 21 (by decide)
      (by decide) (by decide) (by decide) (by decide) (by decide)⟩

/-! ### Bucketing lemmas for the monthly aggregation -/

/-- The numeric value a cell contributes to a NaN-skipping sum. -/
def valQ (c : Cell) : ℚ := (cellNum c).getD 0

lemma seriesSum_eq_map_valQ : ∀ (cs : List Cell),
    seriesSum cs = (cs.map valQ).sum := by
  intro cs
  induction cs with
  | nil => rfl
  | cons c ct ih =>
    cases hc : cellNum c with
    | none =>
      simp only [seriesSum, seriesNums, List.filterMap_cons, hc,
        List.map_cons, List.sum_cons, valQ, Option.getD_none]
      rw [zero_add]
      exact ih
    | some q =>
      simp only [seriesSum, seriesNums, List.filterMap_cons, hc,
        List.map_cons, List.sum_cons, valQ, Option.getD_some]
      exact congrArg (fun s => q + s) ih

lemma filter_of_map {α β : Type} (f : α → β) (p : β → Bool) :
    ∀ (l : List α),
      (l.map f).filter p = (l.filter (fun a => p (f a))).map f := by
  intro l
  induction l with
  | nil => rfl
  | cons a t ih =>
    by_cases hpa : p (f a) = true
    · simp [List.filter_cons, hpa, ih]
    · simp [List.filter_cons, hpa, ih]

lemma bucket_sum_eq (idx : List Date) (r : List Cell) (k : ℕ) :
    seriesSum (bucketCells idx r k)
      = ((((idx.zip r).map (fun p => (monthIdx p.1, valQ p.2))).filter
            (fun p => p.1 == k)).map Prod.snd).sum := by
  unfold bucketCells
  rw [seriesSum_eq_map_valQ, List.map_map, filter_of_map, List.map_map]
  rfl

lemma sum_map_add_distrib (R : List ℕ) (f g : ℕ → ℚ) :
    (R.map (fun k => f k + g k)).sum = (R.map f).sum + (R.map g).sum := by
  induction R with
  | nil => simp
  | cons a t ih =>
    simp only [List.map_cons, List.sum_cons, ih]
    ring

lemma sum_ite_mem (x : ℕ) (v : ℚ) : ∀ (R : List ℕ), R.Nodup → x ∈ R →
    (R.map (fun k => if x = k then v else 0)).sum = v := by
  intro R
  induction R with
  | nil => intro _ hx; cases hx
  | cons a t ih =>
    intro hnd hx
    rcases List.mem_cons.mp hx with rfl | hx2
    · have hnot : x ∉ t := (List.nodup_cons.mp hnd).1
      have hz : (t.map (fun k => if x = k then v else 0)).sum = 0 := by
        apply List.sum_eq_zero
        intro y hy
        obtain ⟨k, hk, rfl⟩ := List.mem_map.mp hy
        rw [if_neg]
        intro hxk
        exact hnot (by rw [hxk]; exact hk)
      simp [hz]
    · have hax : ¬ x = a :=
        fun hxa => (List.nodup_cons.mp hnd).1 (by rw [← hxa]; exact hx2)
      simp [hax, ih (List.nodup_cons.mp hnd).2 hx2]

lemma sum_filter_partition (R : List ℕ) (hnd : R.Nodup) :
    ∀ (ps : List (ℕ × ℚ)), (∀ p ∈ ps, p.1 ∈ R) →
      (R.map (fun k =>
        ((ps.filter (fun p => p.1 == k)).map Prod.snd).sum)).sum
        = (ps.map Prod.snd).sum := by
  intro ps
  induction ps with
  | nil =>
    intro _
    simp only [List.filter_nil, List.map_nil, List.sum_nil]
    apply List.sum_eq_zero
    intro y hy
    obtain ⟨k, _, rfl⟩ := List.mem_map.mp hy
    rfl
  | cons p t iht =>
    intro hmem
    have hp : p.1 ∈ R := hmem p (List.mem_cons_self p t)
    have ht : ∀ q ∈ t, q.1 ∈ R := fun q hq => hmem q (List.mem_cons_of_mem p hq)
    have hrw : (R.map (fun k =>
        (((p :: t).filter (fun q => q.1 == k)).map Prod.snd).sum))
        = R.map (fun k => (if p.1 = k then p.2 else 0)
            + ((t.filter (fun q => q.1 == k)).map Prod.snd).sum) := by
      congr 1
      funext k
      by_cases hk : p.1 = k
      · simp [List.filter_cons, hk]
      · simp [List.filter_cons, hk]
    rw [hrw, sum_map_add_distrib, sum_ite_mem p.1 p.2 R hnd hp, iht ht]
    simp

lemma foldl_min_le_init : ∀ (l : List ℕ) (a : ℕ), l.foldl Nat.min a ≤ a := by
  intro l
  induction l with
  | nil => intro a; exact le_refl a
  | cons b t ih =>
    intro a
    simp only [List.foldl_cons]
    calc t.foldl Nat.min (Nat.min a b) ≤ Nat.min a b := ih (Nat.min a b)
      _ ≤ a := Nat.min_le_left a b

lemma foldl_min_le_mem : ∀ (l : List ℕ) (a x : ℕ),
    x ∈ l → l.foldl Nat.min a ≤ x := by
  intro l
  induction l with
  | nil => intro a x hx; cases hx
  | cons b t ih =>
    intro a x hx
    simp only [List.foldl_cons]
    rcases List.mem_cons.mp hx with rfl | hx2
    · calc t.foldl Nat.min (Nat.min a x) ≤ Nat.min a x :=
          foldl_min_le_init t (Nat.min a x)
        _ ≤ x := Nat.min_le_right a x
    · exact ih (Nat.min a b) x hx2

lemma le_foldl_max_init : ∀ (l : List ℕ) (a : ℕ), a ≤ l.foldl Nat.max a := by
  intro l
  induction l with
  | nil => intro a; exact le_refl a
  | cons b t ih =>
    intro a
    simp only [List.foldl_cons]
    calc a ≤ Nat.max a b := Nat.le_max_left a b
      _ ≤ t.foldl Nat.max (Nat.max a b) := ih (Nat.max a b)

lemma le_foldl_max_mem : ∀ (l : List ℕ) (a x : ℕ),
    x ∈ l → x ≤ l.foldl Nat.max a := by
  intro l
  induction l with
  | nil => intro a x hx; cases hx
  | cons b t ih =>
    intro a x hx
    simp only [List.foldl_cons]
    rcases List.mem_cons.mp hx with rfl | hx2
    · calc x ≤ Nat.max a x := Nat.le_max_right a x
        _ ≤ t.foldl Nat.max (Nat.max a x) := le_foldl_max_init t (Nat.max a x)
    · exact ih (Nat.max a b) x hx2

lemma mem_monthSpan (lo hi k : ℕ) (h1 : lo ≤ k) (h2 : k ≤ hi) :
    k ∈ monthSpan lo hi := by
  unfold monthSpan
  refine List.mem_map.mpr ⟨k - lo, ?_, by omega⟩
  exact List.mem_range.mpr (by omega)

lemma monthSpan_nodup (lo hi : ℕ) : (monthSpan lo hi).Nodup := by
  unfold monthSpan
  refine List.Nodup.map ?_ (List.nodup_range _)
  intro i j hij
  exact Nat.add_left_cancel hij

lemma mem_span_of_mem_cons (k0 : ℕ) (ks : List ℕ) (x : ℕ)
    (hx : x ∈ k0 :: ks) :
    x ∈ monthSpan (ks.foldl Nat.min k0) (ks.foldl Nat.max k0) := by
  apply mem_monthSpan
  · rcases List.mem_cons.mp hx with rfl | h2
    · exact foldl_min_le_init ks x
    · exact foldl_min_le_mem ks k0 x h2
  · rcases List.mem_cons.mp hx with rfl | h2
    · exact le_foldl_max_init ks x
    · exact le_foldl_max_mem ks k0 x h2

lemma map_snd_zip_eq : ∀ (ds : List Date) (cs : List Cell),
    ds.length = cs.length → (ds.zip cs).map Prod.snd = cs := by
  intro ds
  induction ds with
  | nil =>
    intro cs h
    cases cs with
    | nil => rfl
    | cons c ct => simp at h
  | cons d dt ih =>
    intro cs h
    cases cs with
    | nil => simp at h
    | cons c ct =>
      simp only [List.zip_cons_cons, List.map_cons]
      rw [ih ct (by simpa using h)]

/-- C5: for every cleaned table, the monthly rainfall sums produced by
group_and_aggregate, summed over all emitted months, equal the
(NaN-skipping) sum of the table's Rainfall column: monthly bucketing
conserves the total rainfall. -/
theorem C5_monthly_rainfall_conserves_total
    (df : DataFrame) (idx : List Date) (r : List Cell)
    (hwf : df.WF)
    (hidx : df.index = .dates idx)
    (ht : df.hasCol "Temperature" = true)
    (hh : df.hasCol "Humidity" = true)
    (hr : df.getCol? "Rainfall" = some r) :
    (group_and_aggregate df).map
        (fun rows => (rows.map MonthlyRow.rainSum).sum)
      = .ok (seriesSum r) := by
  have ht2 : (df.getCol? "Temperature").isSome = true := ht
  have hh2 : (df.getCol? "Humidity").isSome = true := hh
  obtain ⟨t, hTc⟩ := Option.isSome_iff_exists.mp ht2
  obtain ⟨h, hHc⟩ := Option.isSome_iff_exists.mp hh2
  have hlen : r.length = idx.length := by
    have h1 := hwf ("Rainfall", r) (lookupCol_mem df.cols "Rainfall" r hr)
    rw [DataFrame.len, hidx] at h1
    exact h1
  simp only [group_and_aggregate, hidx, hTc, hr, hHc]
  cases hi : idx.map monthIdx with
  | nil =>
    have hidx0 : idx = [] := List.map_eq_nil_iff.mp hi
    subst hidx0
    have hr0 : r = [] := List.length_eq_zero.mp (by rw [hlen]; rfl)
    subst hr0
    rfl
  | cons k0 ks =>
    simp only [Except.map]
    refine congrArg Except.ok ?_
    rw [List.map_map]
    have hcomp : (MonthlyRow.rainSum ∘ fun k =>
        ({ month := k,
           tempMean := seriesMean (bucketCells idx t k),
           tempMin := seriesMin (bucketCells idx t k),
           tempMax := seriesMax (bucketCells idx t k),
           rainSum := seriesSum (bucketCells idx r k),
           humMean := seriesMean (bucketCells idx h k) } : MonthlyRow))
        = fun k => seriesSum (bucketCells idx r k) := rfl
    rw [hcomp]
    have hb : (fun k => seriesSum (bucketCells idx r k))
        = fun k => ((((idx.zip r).map
              (fun p => (monthIdx p.1, valQ p.2))).filter
            (fun p => p.1 == k)).map Prod.snd).sum := by
      funext k
      exact bucket_sum_eq idx r k
    rw [hb]
    have hmem : ∀ p ∈ (idx.zip r).map
        (fun p => (monthIdx p.1, valQ p.2)),
        p.1 ∈ monthSpan (ks.foldl Nat.min k0) (ks.foldl Nat.max k0) := by
      intro p hp
      obtain ⟨⟨d0, c0⟩, hq, rfl⟩ := List.mem_map.mp hp
      have hd0 : d0 ∈ idx := (List.of_mem_zip hq).1
      have hk : monthIdx d0 ∈ idx.map monthIdx :=
        List.mem_map.mpr ⟨d0, hd0, rfl⟩
      rw [hi] at hk
      exact mem_span_of_mem_cons k0 ks (monthIdx d0) hk
    rw [sum_filter_partition
      (monthSpan (ks.foldl Nat.min k0) (ks.foldl Nat.max k0))
      (monthSpan_nodup _ _) _ hmem]
    rw [List.map_map]
    rw [seriesSum_eq_map_valQ]
    have hzip : (idx.zip r).map
        (Prod.snd ∘ fun p => (monthIdx p.1, valQ p.2))
        = ((idx.zip r).map Prod.snd).map valQ := by
      rw [List.map_map]
      rfl
    rw [hzip, map_snd_zip_eq idx r hlen.symm]

def wdfC5 : DataFrame :=
  { index := .dates [Date.mk 2024 1 10, Date.mk 2024 1 20,
                     Date.mk 2024 3 5],
    cols := [("Temperature", [.num 10, .num 12, .num 20]),
             ("Rainfall", [.num 3, .na, .num 7]),
             ("Humidity", [.num 80, .num 70, .num 60])] }

/-- Witness for C5: three rows spanning January to March 2024 (February is
an empty bucket) with a NaN rainfall cell. -/
theorem C5_monthly_rainfall_conserves_total_witness :
    (wdfC5.WF ∧
      wdfC5.index = .dates [Date.mk 2024 1 10, Date.mk 2024 1 20,
        Date.mk 2024 3 5] ∧
      wdfC5.hasCol "Temperature" = true ∧
      wdfC5.hasCol "Humidity" = true ∧
      wdfC5.getCol? "Rainfall" = some [.num 3, .na, .num 7]) ∧
    (group_and_aggregate wdfC5).map
        (fun rows => (rows.map MonthlyRow.rainSum).sum)
      = .ok (seriesSum [.num 3, .na, .num 7]) :=
  ⟨⟨by decide, rfl, by decide, by decide, by decide⟩,
    C5_monthly_rainfall_conserves_total wdfC5
      [Date.mk 2024 1 10, Date.mk 2024 1 20, Date.mk 2024 3 5]
      [.num 3, .na, .num 7] (by decide) rfl (by decide) (by decide)
      (by decide)⟩

def exampleRaw : DataFrame :=
  { index := .range 2,
    cols := [(DATE_COLUMN, [.str "2024-01-01", .str "2024-02-01"]),
             ("Temperature", [.num 10, .num 20]),
             ("Rainfall", [.num 5, .num 15]),
             ("Humidity", [.num 80, .num 60])] }

def exampleCleaned : DataFrame :=
  { index := .dates [Date.mk 2024 1 1, Date.mk 2024 2 1],
    cols := [("Temperature", [.num 10, .num 20]),
             ("Rainfall", [.num 5, .num 15]),
             ("Humidity", [.num 80, .num 60])] }

/-- C7: the specification's example scenario: for the two-row input with
dates 2024-01-01 and 2024-02-01, temperatures 10 and 20, rainfalls 5 and
15, humidities 80 and 60, the cleaned table is as expected,
compute_statistics reports Temperature mean 15, and group_and_aggregate
yields exactly two monthly rows whose rainfall sums are 5 and 15 in that
order. -/
theorem C7_example_scenario :
    (clean_data exampleRaw).result = some exampleCleaned ∧
    (compute_statistics exampleCleaned).map (fun s => s.temperature.mean)
      = .ok (some 15) ∧
    (group_and_aggregate exampleCleaned).map
        (fun rows => rows.map MonthlyRow.rainSum)
      = .ok [5, 15] := by
  refine ⟨by decide, ?_, ?_⟩
  · have h1 : (compute_statistics exampleCleaned).map
        (fun s => s.temperature.mean)
        = .ok (seriesMean [Cell.num 10, Cell.num 20]) := rfl
    rw [h1]
    have h2 : seriesMean [Cell.num 10, Cell.num 20] = some 15 := by
      simp [seriesMean, seriesNums, cellNum]
      norm_num
    rw [h2]
  · have h1 : (group_and_aggregate exampleCleaned).map
        (fun rows => rows.map MonthlyRow.rainSum)
        = .ok [seriesSum [Cell.num 5], seriesSum [Cell.num 15]] := rfl
    rw [h1]
    norm_num [seriesSum, seriesNums, cellNum, List.filterMap_cons,
      List.filterMap_nil]

/-- C6: determinism: two runs of main over filesystems holding the same
input-file content write the same artifact files with identical contents
(in particular, byte-identical cleaned-data output), compute identical
overall-statistics and monthly-summary tables, and end the same way. -/
theorem C6_pipeline_deterministic
    (fs1 fs2 : FS)
    (h : fsRead fs1 DATA_FILE = fsRead fs2 DATA_FILE) :
    (main_run fs1).writes = (main_run fs2).writes ∧
    (main_run fs1).stats = (main_run fs2).stats ∧
    (main_run fs1).monthly = (main_run fs2).monthly ∧
    (main_run fs1).exn = (main_run fs2).exn := by
  have hl : load_data fs1 DATA_FILE = load_data fs2 DATA_FILE := by
    unfold load_data
    rw [h]
  unfold main_run
  rw [hl]
  cases load_data fs2 DATA_FILE <;> exact ⟨rfl, rfl, rfl, rfl⟩

def wdfC6 : DataFrame :=
  { index := .range 1,
    cols := [(DATE_COLUMN, [.str "2025-02-03"]), ("Temperature", [.num 4]),
             ("Rainfall", [.num 6]), ("Humidity", [.num 33])] }

def wfsC6a : FS := [("junk.txt", .text "leftover"), (DATA_FILE, .table wdfC6)]

def wfsC6b : FS := [(DATA_FILE, .table wdfC6)]

/-- Witness for C6: two filesystems differing in an unrelated file but
agreeing on the input file. -/
theorem C6_pipeline_deterministic_witness :
    fsRead wfsC6a DATA_FILE = fsRead wfsC6b DATA_FILE ∧
    ((main_run wfsC6a).writes = (main_run wfsC6b).writes ∧
      (main_run wfsC6a).stats = (main_run wfsC6b).stats ∧
      (main_run wfsC6a).monthly = (main_run wfsC6b).monthly ∧
      (main_run wfsC6a).exn = (main_run wfsC6b).exn) :=
  ⟨rfl, C6_pipeline_deterministic wfsC6a wfsC6b rfl⟩
